import Mathlib

/-!
Shallow embedding of src/copulas/bivariate/base.py (class Bivariate) and the
parts of the bivariate copula family kernels the claims need.  Machine floats
are modelled by rationals (the Python operations used here are exact order
comparisons and field arithmetic); the kernels' real-valued copula formulas by
real numbers.  A Python method that can raise becomes a function returning an
Option PyError or an Except PyError value; object mutation becomes explicit
state passing on BivariateState.
-/

namespace Copulas

/-- Enum CopulaTypes of base.py lines 14-20: the four available copula families. -/
inductive CopulaTypes
  | CLAYTON
  | FRANK
  | GUMBEL
  | INDEPENDENCE
deriving DecidableEq, Repr

/-- Name of an enum member, as Python's member.name returns it (used by to_dict). -/
def CopulaTypes.name : CopulaTypes → String
  | .CLAYTON => "CLAYTON"
  | .FRANK => "FRANK"
  | .GUMBEL => "GUMBEL"
  | .INDEPENDENCE => "INDEPENDENCE"

/-- Exceptions the embedded base.py code can raise.
valueErrorTheta is check_theta's ValueError (lines 125-127); valueErrorCopulaType
is the ValueError of Bivariate.__new__ line 100; valueErrorTauRange is sample's
ValueError line 301; typeErrorNoneCompare is the Python 3 TypeError raised by
comparing None with an int (sample line 300 when self.tau is None);
attributeErrorNone is the AttributeError from setting an attribute on None
(from_dict line 186 when the constructor returned None); notFittedError is
copulas.NotFittedError. -/
inductive PyError
  | notFittedError
  | valueErrorTheta
  | valueErrorCopulaType
  | valueErrorTauRange
  | typeErrorNoneCompare
  | attributeErrorNone
deriving DecidableEq, Repr

/-- Endpoint of a theta_interval: a rational, or one of the two float infinities
that the concrete families use as interval endpoints. -/
inductive Bound
  | ninf
  | fin (q : ℚ)
  | pinf
deriving DecidableEq, Repr

/-- Meaning of lower <= theta for an interval's lower endpoint. -/
def Bound.leq : Bound → ℚ → Prop
  | .ninf, _ => True
  | .fin a, θ => a ≤ θ
  | .pinf, _ => False

/-- Meaning of theta <= upper for an interval's upper endpoint. -/
def Bound.geq : Bound → ℚ → Prop
  | .ninf, _ => False
  | .fin b, θ => θ ≤ b
  | .pinf, _ => True

instance (b : Bound) (θ : ℚ) : Decidable (b.leq θ) :=
  match b with
  | .ninf => inferInstanceAs (Decidable True)
  | .fin _ => inferInstanceAs (Decidable (_ ≤ _))
  | .pinf => inferInstanceAs (Decidable False)

instance (b : Bound) (θ : ℚ) : Decidable (b.geq θ) :=
  match b with
  | .ninf => inferInstanceAs (Decidable False)
  | .fin _ => inferInstanceAs (Decidable (_ ≤ _))
  | .pinf => inferInstanceAs (Decidable True)

/-- Mutable instance state of a Bivariate object: the theta and tau attributes,
both of which default to None on the class (base.py lines 55-56). -/
structure BivariateState where
  theta : Option ℚ
  tau : Option ℚ
deriving DecidableEq, Repr

/-- State of a freshly constructed, unfit model: theta and tau are the class
defaults None. -/
def freshState : BivariateState := ⟨none, none⟩

/-- Class-level data of one concrete family: its CopulaTypes tag, the
theta_interval endpoints, invalid_thetas, and the compute_theta method the
base class dispatches to (base.py line 144; abstract at line 309, implemented
by each subclass). The subclass modules are not part of src/, so concrete
instances of this structure are modelled from the spec where needed. -/
structure FamilyKernel where
  copulaType : CopulaTypes
  thetaLower : Bound
  thetaUpper : Bound
  invalidThetas : List ℚ
  computeTheta : ℚ → ℚ

/-- Embedding of Bivariate.check_theta (base.py lines 115-127): raise ValueError
iff not (lower <= theta <= upper) or theta is in invalid_thetas. -/
def check_theta (k : FamilyKernel) (θ : ℚ) : Option PyError :=
  if ¬ (k.thetaLower.leq θ ∧ k.thetaUpper.geq θ) ∨ θ ∈ k.invalidThetas then
    some PyError.valueErrorTheta
  else
    none

/-- Embedding of Bivariate.check_fit (base.py lines 129-140): `if not self.theta`
raises NotFittedError — Python truthiness, so theta = None and theta = 0 both
take that branch — and otherwise check_theta runs on the set theta. -/
def check_fit (k : FamilyKernel) (m : BivariateState) : Option PyError :=
  match m.theta with
  | none => some PyError.notFittedError
  | some θ => if θ = 0 then some PyError.notFittedError else check_theta k θ

/-- Sign of a rational, as used by the concordance count. -/
def sgn (x : ℚ) : ℚ := if 0 < x then 1 else if x < 0 then -1 else 0

/-- Ordered pairs (i < j) of a list's elements. -/
def orderedPairs : List (ℚ × ℚ) → List ((ℚ × ℚ) × (ℚ × ℚ))
  | [] => []
  | p :: rest => rest.map (fun q => (p, q)) ++ orderedPairs rest

/-- Modelled from the spec: scipy.stats.kendalltau (an external collaborator
called at base.py line 157), "the standard rank-concordance statistic" of
spec 4.2. This is the tau-a form (concordant minus discordant over n choose 2),
which coincides with scipy's tau-b on tie-free data; every concrete input used
below is tie-free, so the tie correction (which involves a square root) is not
modelled. -/
def kendallTau (X : List (ℚ × ℚ)) : ℚ :=
  let s := ((orderedPairs X).map
    (fun pq => sgn (pq.2.1 - pq.1.1) * sgn (pq.2.2 - pq.1.2))).sum
  let n : ℚ := X.length
  if X.length < 2 then 0 else s / (n * (n - 1) / 2)

/-- Embedding of Bivariate.fit (base.py lines 147-158) together with
_compute_theta (lines 142-145). The method first assigns self.tau, then
assigns self.theta = compute_theta(), then runs check_theta, which may raise:
the returned state is the object's state after the call either way, and the
Option PyError is the exception check_theta raised, if any. -/
def fit (k : FamilyKernel) (m : BivariateState) (X : List (ℚ × ℚ)) :
    BivariateState × Option PyError :=
  let τ := kendallTau X
  let m1 : BivariateState := { m with tau := some τ }
  let θ := k.computeTheta τ
  let m2 : BivariateState := { m1 with theta := some θ }
  (m2, check_theta k θ)

/-- Serialized record of a model, as built by to_dict (base.py lines 160-171):
the family name string and the two parameters. -/
structure CopulaDict where
  copula_type : String
  theta : Option ℚ
  tau : Option ℚ
deriving DecidableEq, Repr

/-- Embedding of Bivariate.to_dict (base.py lines 160-171). -/
def to_dict (t : CopulaTypes) (m : BivariateState) : CopulaDict :=
  { copula_type := t.name, theta := m.theta, tau := m.tau }

/-- Python str.upper, character by character (the family names are ASCII).
Stated on the string's character list so that it evaluates by kernel
reduction. -/
def pyUpper (s : String) : String := String.mk (s.data.map Char.toUpper)

/-- Embedding of the string branch of Bivariate.__new__ (base.py lines 96-100):
copula_type.upper() is looked up in CopulaTypes.__members__; an unknown name
raises ValueError. -/
def parseCopulaType (s : String) : Option CopulaTypes :=
  if pyUpper s = "CLAYTON" then some CopulaTypes.CLAYTON
  else if pyUpper s = "FRANK" then some CopulaTypes.FRANK
  else if pyUpper s = "GUMBEL" then some CopulaTypes.GUMBEL
  else if pyUpper s = "INDEPENDENCE" then some CopulaTypes.INDEPENDENCE
  else none

/-- Argument accepted for copula_type by Bivariate.__new__: a CopulaTypes
member or a string (any other type raises the same ValueError as an unknown
string and is not modelled separately). -/
inductive CopulaArg
  | enum (t : CopulaTypes)
  | str (s : String)
deriving DecidableEq, Repr

/-- Family an argument denotes, if any: an enum member denotes itself, a string
is parsed case-insensitively. -/
def CopulaArg.family : CopulaArg → Option CopulaTypes
  | .enum t => some t
  | .str s => parseCopulaType s

/-- Outcome of the constructor expression Bivariate(...): an instance (tagged
with the concrete subclass family, or none for a base-class instance), the
value None (Python's __new__ returning None, so no instance and no error), or
a raised exception. -/
inductive NewResult
  | made (t : Option CopulaTypes) (s : BivariateState)
  | noneValue
  | error (e : PyError)
deriving DecidableEq, Repr

/-- Embedding of Bivariate.__new__ (base.py lines 86-104). The registry is the
list of copula_type tags of the subclasses the scan at lines 58-84 finds, in
scan order: kwargs without copula_type give a base instance; an argument naming
no CopulaTypes member raises ValueError; the dispatch loop returns an instance
of the first registered subclass with the matching tag, and falls through —
returning None — when no registered subclass matches. -/
def Bivariate.new (registry : List CopulaTypes) : Option CopulaArg → NewResult
  | none => NewResult.made none freshState
  | some a =>
    match a.family with
    | none => NewResult.error PyError.valueErrorCopulaType
    | some t =>
      if t ∈ registry then NewResult.made (some t) freshState else NewResult.noneValue

/-- Modelled from the spec: the registry in force at process start. Spec 4.1
says the set of registered kernels is static at process start and 3 that the
enumeration {Clayton, Frank, Gumbel, Independence} is closed; the subclass
modules that register themselves are not part of src/. -/
def fullRegistry : List CopulaTypes :=
  [CopulaTypes.CLAYTON, CopulaTypes.FRANK, CopulaTypes.GUMBEL, CopulaTypes.INDEPENDENCE]

/-- Embedding of Bivariate.from_dict (base.py lines 173-188): construct
cls(copula_type=record name), then assign instance.theta and instance.tau from
the record, with no validation of either. When the constructor expression
returned None (an unregistered family), the attribute assignment on None
raises AttributeError. -/
def from_dict (registry : List CopulaTypes) (d : CopulaDict) :
    Except PyError (CopulaTypes × BivariateState) :=
  match Bivariate.new registry (some (CopulaArg.str d.copula_type)) with
  | NewResult.made (some t) s => Except.ok (t, { s with theta := d.theta, tau := d.tau })
  | NewResult.made none _ => Except.error PyError.attributeErrorNone
  | NewResult.noneValue => Except.error PyError.attributeErrorNone
  | NewResult.error e => Except.error e

/-- Embedding of Bivariate.partial_derivative_scalar (base.py lines 280-285):
check_fit guards the call, then the subclass partial_derivative method (pd,
abstract in base.py line 263, dispatched at runtime) is applied. -/
def partial_derivative_scalar (pd : ℚ → ℚ → ℚ → ℚ) (k : FamilyKernel)
    (m : BivariateState) (u v y : ℚ) : Except PyError ℚ :=
  match check_fit k m with
  | some e => Except.error e
  | none => Except.ok (pd u v y)

/-- Embedding of Bivariate.sample (base.py lines 287-307). The two
np.random.uniform(0, 1, n) draws are passed explicitly as the lists v and c;
pp is the subclass percent_point method (abstract in base.py line 246,
dispatched at runtime). The guard `self.tau > 1 or self.tau < -1` raises
ValueError; when self.tau is still None, the comparison itself raises a
Python 3 TypeError. On the happy path u = percent_point(c, v) and the result
is column_stack((u, v)): the pairs (u_i, v_i). -/
def sample (pp : ℚ → ℚ → ℚ) (m : BivariateState) (v c : List ℚ) :
    Except PyError (List (ℚ × ℚ)) :=
  match m.tau with
  | none => Except.error PyError.typeErrorNoneCompare
  | some τ =>
    if 1 < τ ∨ τ < -1 then Except.error PyError.valueErrorTauRange
    else Except.ok ((c.zip v).map (fun p => (pp p.1 p.2, p.2)))

/-- Modelled from the spec: the Independence kernel of spec 4.1 — theta is
always 0 (so 0 is a valid theta for this family: its interval is the single
point 0 and nothing is excluded), and any tau maps to theta = 0. -/
def independenceKernel : FamilyKernel :=
  { copulaType := CopulaTypes.INDEPENDENCE
    thetaLower := Bound.fin 0
    thetaUpper := Bound.fin 0
    invalidThetas := []
    computeTheta := fun _ => 0 }

/-- Modelled from the spec: the Gumbel kernel's parameter data. Its
analytically derived tau-theta relation (spec 4.2) is theta = 1/(1 - tau) and
its valid domain is theta in [1, inf): Gumbel cannot represent negative
dependence, so a negative tau yields a theta below 1, "outside what the family
can represent" (spec 4.2 step 3). -/
def gumbelKernel : FamilyKernel :=
  { copulaType := CopulaTypes.GUMBEL
    thetaLower := Bound.fin 1
    thetaUpper := Bound.pinf
    invalidThetas := []
    computeTheta := fun τ => 1 / (1 - τ) }

/-- Modelled from the spec: the Independence family's cumulative distribution,
"CDF is the product of marginals" (spec 4.1). base.py's own
cumulative_distribution (lines 230-244) is abstract and the kernel modules are
not in src/, so the closed forms are taken from the spec's words. -/
def independenceCDF (u v : ℝ) : ℝ := u * v

/-- Modelled from the spec: the data of an Archimedean kernel (spec 4.3): the
family's generator psi and its pseudo-inverse psiInv. -/
structure ArchimedeanGenerator where
  psi : ℝ → ℝ
  psiInv : ℝ → ℝ

/-- Modelled from the spec: the Archimedean closed form
C(u, v) = psiInv (psi u + psi v) of spec 4.3, shared by every non-degenerate
family. -/
def archimedeanCDF (g : ArchimedeanGenerator) (u v : ℝ) : ℝ :=
  g.psiInv (g.psi u + g.psi v)

/-- Generator psi(u) = 1 - u with pseudo-inverse psiInv(s) = max (1 - s) 0: a
concrete instance of the spec's generator contract (it gives the lower
Frechet copula max (u + v - 1) 0), used to witness the boundary law. -/
def lukasiewiczGenerator : ArchimedeanGenerator :=
  { psi := fun u => 1 - u
    psiInv := fun s => max (1 - s) 0 }

/-! Helper lemmas shared by the claim theorems below. -/

/-- check_theta can only raise its own ValueError, never NotFittedError. -/
theorem check_theta_ne_notfitted (k : FamilyKernel) (θ : ℚ) :
    check_theta k θ ≠ some PyError.notFittedError := by
  unfold check_theta
  split <;> simp

/-- partial_derivative_scalar propagates exactly the exception check_fit raises. -/
theorem pds_error_iff (pd : ℚ → ℚ → ℚ → ℚ) (k : FamilyKernel) (m : BivariateState)
    (u v y : ℚ) (e : PyError) :
    partial_derivative_scalar pd k m u v y = Except.error e ↔ check_fit k m = some e := by
  unfold partial_derivative_scalar
  cases h : check_fit k m <;> simp

/-- check_fit raises NotFittedError exactly on theta unset or theta equal to 0. -/
theorem check_fit_eq_notfitted_iff (k : FamilyKernel) (m : BivariateState) :
    check_fit k m = some PyError.notFittedError ↔ m.theta = none ∨ m.theta = some 0 := by
  rcases m with ⟨θo, τo⟩
  cases θo with
  | none => simp [check_fit]
  | some θ =>
    by_cases h0 : θ = 0
    · subst h0
      simp [check_fit]
    · simp [check_fit, h0, check_theta_ne_notfitted k θ]

/-- Parsing the textual name of an enum member gives back the member. -/
theorem parseCopulaType_name (t : CopulaTypes) : parseCopulaType t.name = some t := by
  cases t <;> decide

/-- Every family of the closed enumeration is in the process-start registry. -/
theorem mem_fullRegistry (t : CopulaTypes) : t ∈ fullRegistry := by
  cases t <;> decide

/-- C1 (corrected): fitting is not atomic. For every kernel, prior state and
observation list, fit assigns tau = kendallTau X and then theta =
compute_theta(tau) before any validation runs, so the post-call state holds
both values even when validation fails; the call succeeds exactly when the
computed theta passes check_theta. -/
theorem fit_sets_parameters_then_validates (k : FamilyKernel) (m : BivariateState)
    (X : List (ℚ × ℚ)) :
    (fit k m X).1.tau = some (kendallTau X) ∧
    (fit k m X).1.theta = some (k.computeTheta (kendallTau X)) ∧
    ((fit k m X).2 = none ↔ check_theta k (k.computeTheta (kendallTau X)) = none) :=
  ⟨rfl, rfl, Iff.rfl⟩

/-- C1 counterexample: on the tie-free 4-row dataset [(1,3),(2,4),(3,1),(4,2)]
the Gumbel fit computes tau = -1/3 and theta = 3/4, which fails validation
(theta below 1), yet the post-call state has both tau and theta set — the
model is not "left unfit with no side effect" as the claim states. -/
theorem fit_failure_leaves_parameters_set :
    (fit gumbelKernel freshState [(1, 3), (2, 4), (3, 1), (4, 2)]).2
      = some PyError.valueErrorTheta ∧
    (fit gumbelKernel freshState [(1, 3), (2, 4), (3, 1), (4, 2)]).1
      = { theta := some (3 / 4), tau := some (-(1 / 3)) } := by
  refine ⟨?_, ?_⟩ <;>
    norm_num [fit, kendallTau, orderedPairs, sgn, gumbelKernel, freshState, check_theta,
      Bound.leq, Bound.geq]

/-- C2 (corrected): a check_fit-guarded query raises NotFittedError exactly
when theta is unset or equals 0 — not exactly when theta is unset. A set,
family-valid nonzero theta passes, and partial_derivative_scalar propagates
the same NotFittedError condition. -/
theorem check_fit_raises_notfitted_iff (k : FamilyKernel) (m : BivariateState)
    (pd : ℚ → ℚ → ℚ → ℚ) (u v y : ℚ) :
    (check_fit k m = some PyError.notFittedError ↔ m.theta = none ∨ m.theta = some 0) ∧
    (∀ θ, m.theta = some θ → θ ≠ 0 → check_theta k θ = none → check_fit k m = none) ∧
    (partial_derivative_scalar pd k m u v y = Except.error PyError.notFittedError ↔
      m.theta = none ∨ m.theta = some 0) := by
  refine ⟨check_fit_eq_notfitted_iff k m, ?_,
    (pds_error_iff pd k m u v y PyError.notFittedError).trans (check_fit_eq_notfitted_iff k m)⟩
  intro θ hθ h0 hct
  simp [check_fit, hθ, h0, hct]

/-- C2 counterexample: the model with theta set to 0 — a value check_theta
accepts for the Independence family — is rejected by check_fit with
NotFittedError, against the claim that any set, family-valid theta (including
theta = 0) passes. -/
theorem check_fit_rejects_valid_zero_theta :
    check_fit independenceKernel { theta := some 0, tau := some 0 }
      = some PyError.notFittedError ∧
    check_theta independenceKernel 0 = none := by decide

/-- C3 (corrected): from_dict validates only the family name. Whenever the
record's name parses to a registered family, from_dict returns a model with
theta and tau copied verbatim from the record — no re-validation of theta
against the family's interval or exclusion set happens. -/
theorem from_dict_skips_theta_validation (registry : List CopulaTypes) (d : CopulaDict)
    (t : CopulaTypes) (h1 : parseCopulaType d.copula_type = some t) (h2 : t ∈ registry) :
    from_dict registry d = Except.ok (t, { theta := d.theta, tau := d.tau }) := by
  unfold from_dict Bivariate.new
  simp [CopulaArg.family, h1, h2, freshState]

/-- C3 witness: a record naming clayton case-insensitively with theta = -5 and
tau = 2 is accepted verbatim. -/
theorem from_dict_skips_theta_validation_witness :
    from_dict fullRegistry { copula_type := "clayton", theta := some (-5), tau := some 2 }
      = Except.ok (CopulaTypes.CLAYTON, { theta := some (-5), tau := some 2 }) :=
  from_dict_skips_theta_validation fullRegistry
    { copula_type := "clayton", theta := some (-5), tau := some 2 }
    CopulaTypes.CLAYTON (by decide) (by decide)

/-- C3 counterexample: a record carrying theta = 1/2 for the Gumbel family —
a value check_theta rejects as out of the interval [1, inf) — is returned as
a model by from_dict instead of failing with InvalidParameter. -/
theorem from_dict_accepts_invalid_theta :
    from_dict fullRegistry { copula_type := "GUMBEL", theta := some (1 / 2), tau := some 0 }
      = Except.ok (CopulaTypes.GUMBEL, { theta := some (1 / 2), tau := some 0 }) ∧
    check_theta gumbelKernel (1 / 2) = some PyError.valueErrorTheta := by
  refine ⟨rfl, ?_⟩
  norm_num [check_theta, gumbelKernel, Bound.leq, Bound.geq]

/-- C4 (confirmed): with the process-start registry holding all four families,
a copula_type argument naming a registered family (as an enum member or a
case-insensitive string) yields an uninitialized instance bound to that
family, and an argument naming no family raises the invalid-copula-type
ValueError. -/
theorem factory_dispatch (a b : CopulaArg) (t : CopulaTypes)
    (h1 : a.family = some t) (h2 : b.family = none) :
    Bivariate.new fullRegistry (some a) = NewResult.made (some t) freshState ∧
    Bivariate.new fullRegistry (some b) = NewResult.error PyError.valueErrorCopulaType := by
  constructor
  · simp [Bivariate.new, h1, mem_fullRegistry t]
  · simp [Bivariate.new, h2]

/-- C4 witness: the lowercase string frank dispatches to the FRANK family and
the unknown name gaussian raises ValueError. -/
theorem factory_dispatch_witness :
    Bivariate.new fullRegistry (some (CopulaArg.str "frank"))
      = NewResult.made (some CopulaTypes.FRANK) freshState ∧
    Bivariate.new fullRegistry (some (CopulaArg.str "gaussian"))
      = NewResult.error PyError.valueErrorCopulaType :=
  factory_dispatch (CopulaArg.str "frank") (CopulaArg.str "gaussian") CopulaTypes.FRANK
    (by decide) (by decide)

/-- C5 (corrected): sample raises the range ValueError (the spec's
InvalidState) exactly when tau is set and outside [-1, 1]; a model whose tau
is unset fails instead with the TypeError of comparing None against an int,
and a model with tau set inside [-1, 1] passes the guard unconditionally —
sample performs no fit check at all. -/
theorem sample_guard_behavior (pp : ℚ → ℚ → ℚ) (m : BivariateState) (v c : List ℚ) :
    (sample pp m v c = Except.error PyError.valueErrorTauRange ↔
      ∃ τ, m.tau = some τ ∧ (1 < τ ∨ τ < -1)) ∧
    (m.tau = none → sample pp m v c = Except.error PyError.typeErrorNoneCompare) ∧
    (∀ τ, m.tau = some τ → -1 ≤ τ → τ ≤ 1 →
      sample pp m v c = Except.ok ((c.zip v).map (fun p => (pp p.1 p.2, p.2)))) := by
  rcases m with ⟨θo, τo⟩
  cases τo with
  | none => simp [sample]
  | some τ =>
    refine ⟨?_, fun h => Option.noConfusion h, ?_⟩
    · by_cases hg : 1 < τ ∨ τ < -1
      · exact iff_of_true (by simp [sample, hg]) ⟨τ, rfl, hg⟩
      · simp only [sample, if_neg hg]
        constructor
        · intro h
          exact Except.noConfusion h
        · rintro ⟨τ', hτ', hr⟩
          have he : τ = τ' := Option.some.inj hτ'
          subst he
          exact absurd hr hg
    · intro τ' hτ' h1 h2
      have he : τ = τ' := Option.some.inj hτ'
      subst he
      have hg : ¬ (1 < τ ∨ τ < -1) := by
        push_neg
        exact ⟨h2, h1⟩
      simp [sample, hg]

/-- C5 counterexample: on an unfit model (tau still None) sample fails with
the TypeError from the None comparison, which is not the range ValueError the
claim (InvalidState) requires. -/
theorem sample_unfit_raises_typeerror :
    sample (fun y _ => y) freshState [] [] = Except.error PyError.typeErrorNoneCompare ∧
    PyError.typeErrorNoneCompare ≠ PyError.valueErrorTauRange :=
  ⟨rfl, by decide⟩

/-- C6 (confirmed): the serialization round trip through to_dict and from_dict
reproduces the family tag and both parameters exactly, and from_dict rejects
every record whose family name is outside the closed enumeration with the
invalid-copula-type ValueError. -/
theorem serialization_round_trip (t : CopulaTypes) (m : BivariateState) (d : CopulaDict)
    (h : parseCopulaType d.copula_type = none) :
    from_dict fullRegistry (to_dict t m) = Except.ok (t, m) ∧
    from_dict fullRegistry d = Except.error PyError.valueErrorCopulaType := by
  constructor
  · rcases m with ⟨θo, τo⟩
    unfold from_dict to_dict Bivariate.new
    simp [CopulaArg.family, parseCopulaType_name t, mem_fullRegistry t, freshState]
  · unfold from_dict Bivariate.new
    simp [CopulaArg.family, h]

/-- C6 witness: a fitted Clayton model round-trips exactly, and the family
name gaussian is rejected. -/
theorem serialization_round_trip_witness :
    from_dict fullRegistry
      (to_dict CopulaTypes.CLAYTON { theta := some (1 / 2), tau := some (1 / 5) })
      = Except.ok (CopulaTypes.CLAYTON, { theta := some (1 / 2), tau := some (1 / 5) }) ∧
    from_dict fullRegistry { copula_type := "gaussian", theta := some 1, tau := some 0 }
      = Except.error PyError.valueErrorCopulaType :=
  serialization_round_trip CopulaTypes.CLAYTON { theta := some (1 / 2), tau := some (1 / 5) }
    { copula_type := "gaussian", theta := some 1, tau := some 0 } (by decide)

/-- C7 (confirmed): the boundary law. For the Independence kernel and for any
Archimedean kernel whose generator meets the spec's contract (psi 1 = 0,
psiInv inverts psi on [0,1], psi nonnegative on [0,1], and the pseudo-inverse
vanishes at or beyond psi 0), the closed-form CDF satisfies C(u,0) = 0,
C(0,v) = 0, C(1,v) = v and C(u,1) = u exactly, with no special-casing. -/
theorem copula_boundary_law (g : ArchimedeanGenerator) (u v : ℝ)
    (hu0 : 0 ≤ u) (hu1 : u ≤ 1) (hv0 : 0 ≤ v) (hv1 : v ≤ 1)
    (hpsi1 : g.psi 1 = 0)
    (hinv : ∀ w, 0 ≤ w → w ≤ 1 → g.psiInv (g.psi w) = w)
    (hnonneg : ∀ w, 0 ≤ w → w ≤ 1 → 0 ≤ g.psi w)
    (hcut : ∀ s, g.psi 0 ≤ s → g.psiInv s = 0) :
    independenceCDF u 0 = 0 ∧ independenceCDF 0 v = 0 ∧
    independenceCDF 1 v = v ∧ independenceCDF u 1 = u ∧
    archimedeanCDF g u 0 = 0 ∧ archimedeanCDF g 0 v = 0 ∧
    archimedeanCDF g 1 v = v ∧ archimedeanCDF g u 1 = u := by
  refine ⟨by simp [independenceCDF], by simp [independenceCDF],
    by simp [independenceCDF], by simp [independenceCDF], ?_, ?_, ?_, ?_⟩
  · have hpu := hnonneg u hu0 hu1
    unfold archimedeanCDF
    exact hcut _ (by linarith)
  · have hpv := hnonneg v hv0 hv1
    unfold archimedeanCDF
    exact hcut _ (by linarith)
  · unfold archimedeanCDF
    rw [hpsi1, zero_add]
    exact hinv v hv0 hv1
  · unfold archimedeanCDF
    rw [hpsi1, add_zero]
    exact hinv u hu0 hu1

/-- C7 witness: the boundary identities evaluated at u = 1/2, v = 1/3 for the
Independence CDF and for the Archimedean CDF of the Lukasiewicz generator. -/
theorem copula_boundary_law_witness :
    independenceCDF (1 / 2) 0 = 0 ∧ independenceCDF 0 (1 / 3) = 0 ∧
    independenceCDF 1 (1 / 3) = (1 / 3 : ℝ) ∧ independenceCDF (1 / 2) 1 = (1 / 2 : ℝ) ∧
    archimedeanCDF lukasiewiczGenerator (1 / 2) 0 = 0 ∧
    archimedeanCDF lukasiewiczGenerator 0 (1 / 3) = 0 ∧
    archimedeanCDF lukasiewiczGenerator 1 (1 / 3) = (1 / 3 : ℝ) ∧
    archimedeanCDF lukasiewiczGenerator (1 / 2) 1 = (1 / 2 : ℝ) :=
  copula_boundary_law lukasiewiczGenerator (1 / 2) (1 / 3)
    (by norm_num) (by norm_num) (by norm_num) (by norm_num)
    (by norm_num [lukasiewiczGenerator])
    (fun w hw0 _ => by
      show max (1 - (1 - w)) 0 = w
      rw [show (1 : ℝ) - (1 - w) = w by ring]
      exact max_eq_left hw0)
    (fun w _ hw1 => by
      show (0 : ℝ) ≤ 1 - w
      linarith)
    (fun s hs => by
      show max (1 - s) 0 = 0
      have h1s : (1 : ℝ) ≤ s := by
        simpa [lukasiewiczGenerator] using hs
      exact max_eq_right (by linarith))

/-- C8 (confirmed): check_theta raises its fatal ValueError exactly when theta
lies outside theta_interval or inside invalid_thetas, and theta is never
clamped: the theta fit stores is the exact computed value — even when it is
invalid — and fit's exception is exactly check_theta's verdict on it. -/
theorem check_theta_flags_invalid_exactly (k : FamilyKernel) (θ : ℚ)
    (m : BivariateState) (X : List (ℚ × ℚ)) :
    (check_theta k θ = some PyError.valueErrorTheta ↔
      ¬ (k.thetaLower.leq θ ∧ k.thetaUpper.geq θ) ∨ θ ∈ k.invalidThetas) ∧
    (fit k m X).1.theta = some (k.computeTheta (kendallTau X)) ∧
    (fit k m X).2 = check_theta k (k.computeTheta (kendallTau X)) := by
  refine ⟨?_, rfl, rfl⟩
  unfold check_theta
  split
  · next hcond => exact iff_of_true rfl hcond
  · next hcond => exact iff_of_false (by simp) hcond

/-- C9 (confirmed): for a fit model with tau in [-1, 1] and n independent
uniform draws v and c in [0, 1], sample returns exactly the n pairs
(percent_point(c_i, v_i), v_i); when the kernel's percent_point maps [0,1]
levels to [0,1] (the spec's contract for it), every coordinate of every
returned pair lies in [0, 1]. -/
theorem sample_shape_and_domain (pp : ℚ → ℚ → ℚ) (m : BivariateState) (τ : ℚ)
    (v c : List ℚ) (n : ℕ)
    (hτ : m.tau = some τ) (hτl : -1 ≤ τ) (hτu : τ ≤ 1)
    (hv : v.length = n) (hc : c.length = n)
    (hvb : ∀ x ∈ v, 0 ≤ x ∧ x ≤ 1) (hcb : ∀ x ∈ c, 0 ≤ x ∧ x ≤ 1)
    (hpp : ∀ y w, 0 ≤ y → y ≤ 1 → 0 ≤ w → w ≤ 1 → 0 ≤ pp y w ∧ pp y w ≤ 1) :
    sample pp m v c = Except.ok ((c.zip v).map (fun p => (pp p.1 p.2, p.2))) ∧
    ((c.zip v).map (fun p => (pp p.1 p.2, p.2))).length = n ∧
    ∀ q ∈ (c.zip v).map (fun p => (pp p.1 p.2, p.2)),
      (0 ≤ q.1 ∧ q.1 ≤ 1) ∧ (0 ≤ q.2 ∧ q.2 ≤ 1) := by
  refine ⟨?_, ?_, ?_⟩
  · have hg : ¬ (1 < τ ∨ τ < -1) := by
      push_neg
      exact ⟨hτu, hτl⟩
    simp [sample, hτ, hg]
  · simp [List.length_zip, hv, hc]
  · intro q hq
    simp only [List.mem_map] at hq
    obtain ⟨p, hp, rfl⟩ := hq
    obtain ⟨y, w⟩ := p
    obtain ⟨hyc, hwv⟩ := List.of_mem_zip hp
    obtain ⟨hy0, hy1⟩ := hcb y hyc
    obtain ⟨hw0, hw1⟩ := hvb w hwv
    exact ⟨hpp y w hy0 hy1 hw0 hw1, hw0, hw1⟩

/-- C9 witness: one draw v = 1/2, c = 1/3 on a fit model with the
Independence percent point (identity in the level) returns the single pair
(1/3, 1/2), of length 1 and inside the unit square. -/
theorem sample_shape_and_domain_witness :
    sample (fun y _ => y) { theta := some 0, tau := some 0 } [(1 : ℚ) / 2] [(1 : ℚ) / 3]
      = Except.ok [((1 : ℚ) / 3, (1 : ℚ) / 2)] ∧
    [((1 : ℚ) / 3, (1 : ℚ) / 2)].length = 1 ∧
    ∀ q ∈ [((1 : ℚ) / 3, (1 : ℚ) / 2)], (0 ≤ q.1 ∧ q.1 ≤ 1) ∧ (0 ≤ q.2 ∧ q.2 ≤ 1) :=
  sample_shape_and_domain (fun y _ => y) { theta := some 0, tau := some 0 } 0
    [(1 : ℚ) / 2] [(1 : ℚ) / 3] 1 rfl (by norm_num) (by norm_num) rfl rfl
    (by intro x hx; rw [List.mem_singleton] at hx; subst hx; norm_num)
    (by intro x hx; rw [List.mem_singleton] at hx; subst hx; norm_num)
    (fun y w hy0 hy1 _ _ => ⟨hy0, hy1⟩)

/-- C10 (confirmed): when a family of the enumeration has no registered
subclass, the dispatch loop of Bivariate.__new__ falls through for any
argument naming that family — enum member or case-insensitive string — and
the constructor expression evaluates to None: no instance and no error. -/
theorem unregistered_family_returns_none (registry : List CopulaTypes) (t : CopulaTypes)
    (h : t ∉ registry) :
    Bivariate.new registry (some (CopulaArg.enum t)) = NewResult.noneValue ∧
    Bivariate.new registry (some (CopulaArg.str t.name)) = NewResult.noneValue := by
  constructor
  · simp [Bivariate.new, CopulaArg.family, h]
  · simp [Bivariate.new, CopulaArg.family, parseCopulaType_name t, h]

/-- C10 witness: with an empty registry, asking for CLAYTON by enum member or
by name returns the None value. -/
theorem unregistered_family_returns_none_witness :
    Bivariate.new [] (some (CopulaArg.enum CopulaTypes.CLAYTON)) = NewResult.noneValue ∧
    Bivariate.new [] (some (CopulaArg.str "CLAYTON")) = NewResult.noneValue :=
  unregistered_family_returns_none [] CopulaTypes.CLAYTON (by decide)

end Copulas
